import Mathlib

/-!
Shallow embedding of `BFF_AdamW.step` from `src/bff_optimizer.py`.

Arrays are `List α` over a field `α`; the square root used by
`exp_avg_sq.sqrt()` and by `(1 - beta2**step) ** 0.5` is an explicit
function parameter, instantiated with `Real.sqrt` for exact-arithmetic
claims.  Every in-place tensor write in the source rounds to the target
buffer's storage dtype; this is modelled by a record `Prec` of rounding
functions, one per buffer dtype, applied at each write.  Exact (full
precision) arithmetic is the instance where all rounding functions are
the identity (`Prec.exact`).
-/

namespace BFF

/-- Rounding maps for the storage dtypes: `pP` for the parameter's dtype,
`pM` for `momentum_dtype`, `pV` for `variance_dtype`, `pC` for
`compensation_buffer_dtype`.  Applied at every write into the
corresponding buffer, mirroring dtype rounding of in-place tensor ops. -/
structure Prec (α : Type) where
  pP : α → α
  pM : α → α
  pV : α → α
  pC : α → α

/-- Exact (full-precision) arithmetic: every write is stored exactly. -/
def Prec.exact {α : Type} : Prec α := ⟨id, id, id, id⟩

/-- The hyperparameters of one param group (`defaults` in `__init__`). -/
structure Hyper (α : Type) where
  lr : α
  beta1 : α
  beta2 : α
  eps : α
  weight_decay : α
  use_kahan_summation : Bool

/-- Per-parameter optimizer state `self.state[p]`: step counter,
momentum EMA (`exp_avg`), uncentered variance EMA (`exp_avg_sq`) and the
optional Kahan compensation buffer. -/
structure PState (α : Type) where
  step : ℕ
  exp_avg : List α
  exp_avg_sq : List α
  compensation : Option (List α)
deriving DecidableEq

/-- A gradient tensor: dense values, or a sparse (indices + values)
tensor (`p.grad.is_sparse`). -/
inductive Grad (α : Type) where
  | dense (vals : List α)
  | sparse (idx : List ℕ) (vals : List α)
deriving DecidableEq

/-- A parameter tensor together with its (possibly absent) `.grad`. -/
structure Param (α : Type) where
  data : List α
  grad : Option (Grad α)
deriving DecidableEq

/-- Error message raised on sparse gradients (line 106 of the source). -/
def sparseErr : String := "BFF does not support sparse gradients"

variable {α : Type} [Field α] [DecidableEq α]

/-- State initialization (lines 111-135): `step = 0`, zero-filled
`exp_avg` and `exp_avg_sq`, and a zero-filled `compensation` buffer
exactly when `use_kahan_summation` is set.  `torch.zeros_like` is exact
in every dtype, so no rounding applies here. -/
def initState (hp : Hyper α) (p : List α) : PState α :=
  { step := 0
  , exp_avg := List.replicate p.length 0
  , exp_avg_sq := List.replicate p.length 0
  , compensation :=
      if hp.use_kahan_summation then some (List.replicate p.length 0) else none }

/-- Decoupled weight decay (lines 149-150): `p.data.mul_(1 - lr * weight_decay)`,
executed only when `weight_decay` is truthy (nonzero). -/
def weightDecayPhase (pr : Prec α) (hp : Hyper α) (p : List α) : List α :=
  if hp.weight_decay ≠ 0 then
    p.map (fun x => pr.pP (x * (1 - hp.lr * hp.weight_decay)))
  else p

/-- Momentum update (line 153): `exp_avg.mul_(beta1).add_(grad, alpha=1-beta1)`,
two in-place writes, each rounding to `momentum_dtype`. -/
def momentUpdate (pr : Prec α) (beta1 : α) (m g : List α) : List α :=
  List.zipWith (fun a b => pr.pM (pr.pM (a * beta1) + (1 - beta1) * b)) m g

/-- Uncentered variance update (line 156):
`exp_avg_sq.mul_(beta2).addcmul_(grad, grad, value=1-beta2)`, two
in-place writes, each rounding to `variance_dtype`. -/
def varianceUpdate (pr : Prec α) (beta2 : α) (v g : List α) : List α :=
  List.zipWith (fun a b => pr.pV (pr.pV (a * beta2) + (1 - beta2) * (b * b))) v g

/-- Bias correction 1 (line 159): `1 - beta1**step`. -/
def biasCorrection1 (hp : Hyper α) (t : ℕ) : α :=
  1 - hp.beta1 ^ t

/-- Scalar step size (line 160): `lr / bias_correction1`. -/
def stepSizeOf (hp : Hyper α) (t : ℕ) : α :=
  hp.lr / biasCorrection1 hp t

/-- Denominator correction (line 163): `(1 - beta2**step) ** 0.5`. -/
def denomCorrectionOf (sqrt : α → α) (hp : Hyper α) (t : ℕ) : α :=
  sqrt (1 - hp.beta2 ^ t)

/-- Centered variance (lines 165-167):
`(exp_avg_sq.sqrt() / denom_correction).add_(eps, alpha=1)`.
Three tensor writes in `variance_dtype`: the `sqrt` result, the
quotient, and the in-place add of `alpha * eps = 1 * eps = eps`. -/
def centeredVarianceOf (sqrt : α → α) (pr : Prec α) (hp : Hyper α) (t : ℕ)
    (v : List α) : List α :=
  v.map (fun a =>
    pr.pV (pr.pV (pr.pV (sqrt a) / denomCorrectionOf sqrt hp t) + hp.eps))

/-- Kahan-compensated apply (lines 171-180).  In order:
`compensation.addcdiv_(exp_avg, centered_variance, value=-step_size)`;
`temp_buffer = p.clone()`; `p.data.add_(compensation)`;
`compensation.add_(temp_buffer.sub_(p.data))` — where `temp_buffer.sub_`
writes the clone (parameter dtype) and the outer `add_` writes the
compensation buffer.  Returns (new parameter, new compensation). -/
def kahanApply (pr : Prec α) (stepSize : α) (m cv p c : List α) :
    List α × List α :=
  let c1 := List.zipWith3 (fun ci mi vi => pr.pC (ci + -stepSize * (mi / vi))) c m cv
  let temp := p
  let p2 := List.zipWith (fun a b => pr.pP (a + b)) p c1
  let tsub := List.zipWith (fun a b => pr.pP (a - b)) temp p2
  let c2 := List.zipWith (fun a b => pr.pC (a + b)) c1 tsub
  (p2, c2)

/-- Direct (non-compensated) apply (line 184):
`p.data.addcdiv_(exp_avg, centered_variance, value=-step_size)`. -/
def directApply (pr : Prec α) (stepSize : α) (m cv p : List α) : List α :=
  List.zipWith3 (fun pi mi vi => pr.pP (pi + -stepSize * (mi / vi))) p m cv

/-- The §4.5 specification of the compensated apply, written exactly as
the four numbered spec equations (no storage rounding appears in the
spec's equations):
compensation ← compensation − stepSize·momentum/centeredVariance;
snapshot ← copy(parameter); parameter ← parameter + compensation;
compensation ← compensation + (snapshot − parameter). -/
def kahanApplySpec (stepSize : α) (m cv p c : List α) : List α × List α :=
  let c1 := List.zipWith3 (fun ci mi vi => ci - stepSize * mi / vi) c m cv
  let snapshot := p
  let p2 := List.zipWith (fun a b => a + b) p c1
  let c2 := List.zipWith (fun a b => a + b) c1
    (List.zipWith (fun a b => a - b) snapshot p2)
  (p2, c2)

/-- Main processing for one parameter with a dense gradient
(lines 137-184): increment `step`, weight decay, moment updates, bias
corrections, then the compensated or direct apply.  Returns the new
parameter data and the new state. -/
def stepDense (sqrt : α → α) (pr : Prec α) (hp : Hyper α)
    (st0 : Option (PState α)) (p g : List α) : List α × PState α :=
  let st := st0.getD (initState hp p)
  let t := st.step + 1
  let p1 := weightDecayPhase pr hp p
  let m2 := momentUpdate pr hp.beta1 st.exp_avg g
  let v2 := varianceUpdate pr hp.beta2 st.exp_avg_sq g
  let ss := stepSizeOf hp t
  let cv := centeredVarianceOf sqrt pr hp t v2
  if hp.use_kahan_summation then
    let c := st.compensation.getD (List.replicate p.length 0)
    let pc := kahanApply pr ss m2 cv p1 c
    (pc.1, { step := t, exp_avg := m2, exp_avg_sq := v2, compensation := some pc.2 })
  else
    (directApply pr ss m2 cv p1,
      { step := t, exp_avg := m2, exp_avg_sq := v2, compensation := st.compensation })

/-- One update call for one parameter (lines 101-184): an absent
gradient is skipped leaving everything untouched; a sparse gradient
raises before any state is read or written; a dense gradient runs the
main processing. -/
def stepParam (sqrt : α → α) (pr : Prec α) (hp : Hyper α)
    (pm : Param α) (st : Option (PState α)) :
    Except String (Param α × Option (PState α)) :=
  match pm.grad with
  | none => .ok (pm, st)
  | some (.sparse _ _) => .error sparseErr
  | some (.dense g) =>
    let r := stepDense sqrt pr hp st pm.data g
    .ok ({ data := r.1, grad := pm.grad }, some r.2)

/-- A sequence of update calls for one parameter, each call supplying a
fresh gradient observation for that call. -/
def runCalls (sqrt : α → α) (pr : Prec α) (hp : Hyper α) :
    Param α → Option (PState α) → List (Option (Grad α)) →
    Except String (Param α × Option (PState α))
  | pm, st, [] => .ok (pm, st)
  | pm, st, gobs :: rest =>
    match stepParam sqrt pr hp { data := pm.data, grad := gobs } st with
    | .error e => .error e
    | .ok r => runCalls sqrt pr hp r.1 r.2 rest

/-- Step counter of a possibly-uninitialized state (0 when no state has
been created yet). -/
def stepCount : Option (PState α) → ℕ
  | none => 0
  | some st => st.step

/-- Number of calls in a call list that carry a present dense gradient. -/
def countDense : List (Option (Grad α)) → ℕ
  | [] => 0
  | some (Grad.dense _) :: rest => countDense rest + 1
  | _ :: rest => countDense rest

/-- Whether a call observation carries a sparse gradient. -/
def sparseObs : Option (Grad α) → Bool
  | some (Grad.sparse _ _) => true
  | _ => false

/-- The full compensated step as specified in §4.5: the phases of
`stepDense` with the apply phase replaced by the spec's four-equation
Kahan sequence `kahanApplySpec`, all under exact arithmetic. -/
def kahanStepSpec (sqrt : α → α) (hp : Hyper α) (st0 : Option (PState α))
    (p g : List α) : List α × PState α :=
  let st := st0.getD (initState hp p)
  let t := st.step + 1
  let m2 := momentUpdate Prec.exact hp.beta1 st.exp_avg g
  let v2 := varianceUpdate Prec.exact hp.beta2 st.exp_avg_sq g
  let pc := kahanApplySpec (stepSizeOf hp t) m2
    (centeredVarianceOf sqrt Prec.exact hp t v2)
    (weightDecayPhase Prec.exact hp p)
    (st.compensation.getD (List.replicate p.length 0))
  (pc.1, { step := t, exp_avg := m2, exp_avg_sq := v2, compensation := some pc.2 })

/-- Concrete hyperparameters over ℚ used to exercise the dense path. -/
def hpQ0 : Hyper ℚ := ⟨1, 0, 0, 1, 0, false⟩

/-- Concrete hyperparameters over ℚ with Kahan summation enabled. -/
def hpQK : Hyper ℚ := ⟨1, 0, 0, 1, 0, true⟩

/-- Concrete hyperparameters over ℚ with nonzero weight decay
(the spec's weight-decay scenario: `lr = 0.1`, `weightDecay = 0.1`). -/
def hpQwd : Hyper ℚ := ⟨1/10, 0, 0, 1, 1/10, false⟩

end BFF

namespace BFF

set_option linter.unusedSectionVars false

lemma zipWith_ext {α β γ : Type} (f g : α → β → γ) (h : ∀ a b, f a b = g a b) :
    ∀ (as : List α) (bs : List β), List.zipWith f as bs = List.zipWith g as bs
  | [], _ => rfl
  | _ :: _, [] => rfl
  | a :: as, b :: bs => by
    simp only [List.zipWith_cons_cons, h a b, zipWith_ext f g h as bs]

lemma zipWith3_ext {α β γ δ : Type} (f g : α → β → γ → δ)
    (h : ∀ a b c, f a b c = g a b c) :
    ∀ (as : List α) (bs : List β) (cs : List γ),
      List.zipWith3 f as bs cs = List.zipWith3 g as bs cs
  | [], _, _ => rfl
  | _ :: _, [], _ => rfl
  | _ :: _, _ :: _, [] => rfl
  | a :: as, b :: bs, c :: cs => by
    simp only [List.zipWith3, h a b c, zipWith3_ext f g h as bs cs]

variable {α : Type} [Field α] [DecidableEq α]

lemma kahanApply_exact_spec (s : α) (m cv p c : List α) :
    kahanApply Prec.exact s m cv p c = kahanApplySpec s m cv p c := by
  unfold kahanApply kahanApplySpec
  simp only [Prec.exact, id_eq]
  rw [zipWith3_ext (fun ci mi vi => ci + -s * (mi / vi))
    (fun ci mi vi => ci - s * mi / vi) (by intro a b c; ring) c m cv]

lemma kahanApply_exact_fst (s : α) :
    ∀ (m cv p : List α),
      (kahanApply Prec.exact s m cv p (List.replicate p.length 0)).1 =
        directApply Prec.exact s m cv p
  | _, _, [] => by simp [kahanApply, directApply, List.zipWith3]
  | [], _, _ :: _ => by simp [kahanApply, directApply, List.zipWith3]
  | _ :: _, [], _ :: _ => by simp [kahanApply, directApply, List.zipWith3]
  | mh :: mt, cvh :: cvt, ph :: pt => by
    have ih := kahanApply_exact_fst s mt cvt pt
    simp only [kahanApply, directApply, Prec.exact, id_eq, List.replicate,
      List.zipWith3, List.zipWith_cons_cons, List.length_cons,
      List.cons.injEq] at ih ⊢
    refine ⟨by ring, ih⟩

lemma kahanApply_exact_snd (s : α) :
    ∀ (m cv p c : List α), m.length = p.length → cv.length = p.length →
      c.length = p.length →
      (kahanApply Prec.exact s m cv p c).2 = List.replicate p.length 0
  | m, cv, [], c, hm, hcv, hc => by
    simp only [List.length_nil, List.length_eq_zero] at hm hcv hc
    subst hm; subst hcv; subst hc
    simp [kahanApply, List.zipWith3]
  | m, cv, ph :: pt, c, hm, hcv, hc => by
    cases m with
    | nil => simp at hm
    | cons mh mt =>
      cases cv with
      | nil => simp at hcv
      | cons cvh cvt =>
        cases c with
        | nil => simp at hc
        | cons ch ct =>
          have ih := kahanApply_exact_snd s mt cvt pt ct
            (by simpa using hm) (by simpa using hcv) (by simpa using hc)
          simp only [kahanApply, Prec.exact, id_eq, List.zipWith3,
            List.zipWith_cons_cons, List.length_cons, List.replicate,
            List.cons.injEq] at ih ⊢
          refine ⟨by ring, ih⟩

/-- Claim C1: with compensation enabled, the apply phase of one update is
exactly the spec's four-operation Kahan sequence, in that order:
compensation ← compensation − stepSize·momentum/centeredVariance, then a
snapshot copy of the parameter, then parameter ← parameter + compensation,
then compensation ← compensation + (snapshot − parameter).  Under exact
arithmetic the source's apply phase (`kahanApply`) coincides with the
spec sequence (`kahanApplySpec`), and the whole compensated step is the
spec sequence composed with the other phases. -/
theorem claim_c1 (sqrt : α → α) (hp : Hyper α)
    (hk : hp.use_kahan_summation = true) (st0 : Option (PState α))
    (p g : List α) (s : α) (m cv pp c : List α) :
    kahanApply Prec.exact s m cv pp c = kahanApplySpec s m cv pp c ∧
    stepDense sqrt Prec.exact hp st0 p g = kahanStepSpec sqrt hp st0 p g := by
  refine ⟨kahanApply_exact_spec s m cv pp c, ?_⟩
  simp only [stepDense, kahanStepSpec, hk, if_true, kahanApply_exact_spec]

/-- Claim C4: on every update with a present gradient the moment buffers
are updated elementwise as momentum ← beta1·momentum + (1−beta1)·gradient
and uncenteredVariance ← beta2·uncenteredVariance + (1−beta2)·gradient²,
and the bias-corrected step sizer reads the already-updated
uncenteredVariance: the new parameter is computed from the centered
variance of the updated buffer. -/
theorem claim_c4 (sqrt : α → α) (hp : Hyper α) (st0 : Option (PState α))
    (p g : List α) :
    (stepDense sqrt Prec.exact hp st0 p g).2.exp_avg =
      List.zipWith (fun mi gi => hp.beta1 * mi + (1 - hp.beta1) * gi)
        ((st0.getD (initState hp p)).exp_avg) g ∧
    (stepDense sqrt Prec.exact hp st0 p g).2.exp_avg_sq =
      List.zipWith (fun vi gi => hp.beta2 * vi + (1 - hp.beta2) * gi ^ 2)
        ((st0.getD (initState hp p)).exp_avg_sq) g ∧
    (stepDense sqrt Prec.exact hp st0 p g).1 =
      (if hp.use_kahan_summation then
        (kahanApply Prec.exact
          (stepSizeOf hp ((st0.getD (initState hp p)).step + 1))
          (momentUpdate Prec.exact hp.beta1 (st0.getD (initState hp p)).exp_avg g)
          (centeredVarianceOf sqrt Prec.exact hp
            ((st0.getD (initState hp p)).step + 1)
            (varianceUpdate Prec.exact hp.beta2
              (st0.getD (initState hp p)).exp_avg_sq g))
          (weightDecayPhase Prec.exact hp p)
          ((st0.getD (initState hp p)).compensation.getD
            (List.replicate p.length 0))).1
      else
        directApply Prec.exact
          (stepSizeOf hp ((st0.getD (initState hp p)).step + 1))
          (momentUpdate Prec.exact hp.beta1 (st0.getD (initState hp p)).exp_avg g)
          (centeredVarianceOf sqrt Prec.exact hp
            ((st0.getD (initState hp p)).step + 1)
            (varianceUpdate Prec.exact hp.beta2
              (st0.getD (initState hp p)).exp_avg_sq g))
          (weightDecayPhase Prec.exact hp p)) := by
  refine ⟨?_, ?_, ?_⟩
  · cases hk : hp.use_kahan_summation <;>
      simp [stepDense, hk, momentUpdate, Prec.exact] <;>
      exact zipWith_ext _ _ (by intro a b; ring) _ g
  · cases hk : hp.use_kahan_summation <;>
      simp [stepDense, hk, varianceUpdate, Prec.exact] <;>
      exact zipWith_ext _ _ (by intro a b; ring) _ g
  · cases hk : hp.use_kahan_summation <;> simp [stepDense, hk]

/-- Claim C6: an update call whose gradient is in sparse (index+value)
representation fails with the fatal sparse-gradient error; the error is
raised before any state is read or created, so neither the parameter nor
any state buffer is changed, and the error propagates through a call
sequence. -/
theorem claim_c6 (sqrt : α → α) (pr : Prec α) (hp : Hyper α)
    (d : List α) (idx : List ℕ) (vals : List α) (st : Option (PState α))
    (g0 : Option (Grad α)) (rest : List (Option (Grad α))) (dp : List α) :
    stepParam sqrt pr hp ⟨d, some (Grad.sparse idx vals)⟩ st = .error sparseErr ∧
    runCalls sqrt pr hp ⟨dp, g0⟩ st (some (Grad.sparse idx vals) :: rest) =
      .error sparseErr := by
  constructor
  · rfl
  · rfl

/-- Claim C8: the first update call with a present gradient creates the
state with `step = 0` (before the increment), zero-filled momentum and
variance buffers of the parameter's length, and a zero-filled
compensation buffer exactly when compensation is enabled; running the
step from no state is running it from that freshly created state; and an
absent-gradient call never creates state. -/
theorem claim_c8 (sqrt : α → α) (pr : Prec α) (hp : Hyper α) (p g : List α)
    (d : List α) :
    (initState hp p).step = 0 ∧
    (initState hp p).exp_avg = List.replicate p.length 0 ∧
    (initState hp p).exp_avg_sq = List.replicate p.length 0 ∧
    ((initState hp p).compensation =
      if hp.use_kahan_summation then some (List.replicate p.length 0) else none) ∧
    stepDense sqrt pr hp none p g =
      stepDense sqrt pr hp (some (initState hp p)) p g ∧
    stepParam sqrt pr hp ⟨d, none⟩ none = .ok (⟨d, none⟩, none) := by
  exact ⟨rfl, rfl, rfl, rfl, rfl, rfl⟩

end BFF

namespace BFF

set_option linter.unusedSectionVars false

variable {α : Type} [Field α] [DecidableEq α]

lemma stepDense_step_eq (sqrt : α → α) (pr : Prec α) (hp : Hyper α)
    (st0 : Option (PState α)) (p g : List α) :
    (stepDense sqrt pr hp st0 p g).2.step = stepCount st0 + 1 := by
  cases st0 <;> cases hk : hp.use_kahan_summation <;>
    simp [stepDense, stepCount, initState, hk]

lemma runCalls_ok (sqrt : α → α) (pr : Prec α) (hp : Hyper α) :
    ∀ (calls : List (Option (Grad α))) (pm : Param α) (st : Option (PState α)),
      (∀ c ∈ calls, sparseObs c = false) →
      ∃ pm2 st2, runCalls sqrt pr hp pm st calls = .ok (pm2, st2) ∧
        stepCount st2 = stepCount st + countDense calls
  | [], pm, st, _ => ⟨pm, st, rfl, by simp [countDense]⟩
  | none :: rest, pm, st, h => by
    obtain ⟨pm2, st2, hrun, hcount⟩ := runCalls_ok sqrt pr hp rest ⟨pm.data, none⟩ st
      (fun c hc => h c (List.mem_cons_of_mem _ hc))
    exact ⟨pm2, st2, by simpa [runCalls, stepParam] using hrun,
      by simpa [countDense] using hcount⟩
  | some (Grad.dense g) :: rest, pm, st, h => by
    obtain ⟨pm2, st2, hrun, hcount⟩ := runCalls_ok sqrt pr hp rest
      ⟨(stepDense sqrt pr hp st pm.data g).1, some (Grad.dense g)⟩
      (some (stepDense sqrt pr hp st pm.data g).2)
      (fun c hc => h c (List.mem_cons_of_mem _ hc))
    refine ⟨pm2, st2, by simpa [runCalls, stepParam] using hrun, ?_⟩
    rw [hcount]
    simp [stepCount, stepDense_step_eq, countDense]
    omega
  | some (Grad.sparse i v) :: rest, pm, st, h => by
    have hs := h _ (List.mem_cons_self _ _)
    simp [sparseObs] at hs

/-- Claim C5: an absent-gradient call leaves the parameter and the whole
state (step included) untouched; a present dense-gradient call increases
the step counter by exactly 1; and starting from an uninitialized
parameter, any interleaving of n dense-gradient calls with absent-gradient
calls succeeds and leaves the step counter equal to exactly n. -/
theorem claim_c5 (sqrt : α → α) (pr : Prec α) (hp : Hyper α) :
    (∀ (d : List α) (st : Option (PState α)),
      stepParam sqrt pr hp ⟨d, none⟩ st = .ok (⟨d, none⟩, st)) ∧
    (∀ (st0 : Option (PState α)) (d g : List α),
      (stepDense sqrt pr hp st0 d g).2.step = stepCount st0 + 1) ∧
    (∀ (calls : List (Option (Grad α))) (d : List α),
      (∀ c ∈ calls, sparseObs c = false) →
      ∃ pm2 st2, runCalls sqrt pr hp ⟨d, none⟩ none calls = .ok (pm2, st2) ∧
        stepCount st2 = countDense calls) := by
  refine ⟨fun d st => rfl, stepDense_step_eq sqrt pr hp, fun calls d h => ?_⟩
  obtain ⟨pm2, st2, hrun, hcount⟩ := runCalls_ok sqrt pr hp calls ⟨d, none⟩ none h
  exact ⟨pm2, st2, hrun, by simpa [stepCount] using hcount⟩

/-- Claim C7: when weightDecay = 0 the decay multiply is skipped entirely
(the parameter is not even passed through the storage rounding); when
weightDecay ≠ 0 the parameter is multiplied elementwise by
(1 − learningRate·weightDecay), and this happens before the
gradient-based update: the whole step equals the step with zero weight
decay run on the decayed parameter. -/
theorem claim_c7 (sqrt : α → α) (pr : Prec α) (hp : Hyper α) :
    (∀ p : List α, hp.weight_decay = 0 → weightDecayPhase pr hp p = p) ∧
    (∀ p : List α, hp.weight_decay ≠ 0 → weightDecayPhase pr hp p =
      p.map (fun x => pr.pP (x * (1 - hp.lr * hp.weight_decay)))) ∧
    (∀ (st0 : Option (PState α)) (p g : List α), hp.weight_decay ≠ 0 →
      stepDense sqrt pr hp st0 p g =
        stepDense sqrt pr { hp with weight_decay := 0 } st0
          (p.map (fun x => pr.pP (x * (1 - hp.lr * hp.weight_decay)))) g) := by
  refine ⟨fun p h0 => by simp [weightDecayPhase, h0],
    fun p hw => by simp [weightDecayPhase, hw], fun st0 p g hw => ?_⟩
  have hinit : st0.getD (initState hp p) =
      st0.getD (initState { hp with weight_decay := 0 }
        (p.map (fun x => pr.pP (x * (1 - hp.lr * hp.weight_decay))))) := by
    cases st0 <;> simp [initState, List.length_map]
  simp only [stepDense, ← hinit, weightDecayPhase, hw, ne_eq,
    not_true_eq_false, not_false_eq_true, if_true, if_false, ite_true,
    ite_false, stepSizeOf, biasCorrection1, centeredVarianceOf,
    denomCorrectionOf, momentUpdate, varianceUpdate, List.length_map]

/-- Claim C10: an update call never modifies the gradient: whenever the
call succeeds, the gradient attached to the returned parameter is exactly
the gradient that was passed in; the step only reads it. -/
theorem claim_c10 (sqrt : α → α) (pr : Prec α) (hp : Hyper α)
    (pm : Param α) (st : Option (PState α))
    (r : Param α × Option (PState α))
    (h : stepParam sqrt pr hp pm st = .ok r) : r.1.grad = pm.grad := by
  obtain ⟨d, gr⟩ := pm
  cases gr with
  | none =>
    simp only [stepParam] at h
    cases h
    rfl
  | some gg =>
    cases gg with
    | dense g =>
      simp only [stepParam] at h
      cases h
      rfl
    | sparse i v =>
      simp only [stepParam] at h
      cases h

end BFF

namespace BFF

set_option linter.unusedSectionVars false

variable {α : Type} [Field α] [DecidableEq α]

lemma weightDecayPhase_length (pr : Prec α) (hp : Hyper α) (p : List α) :
    (weightDecayPhase pr hp p).length = p.length := by
  unfold weightDecayPhase
  split <;> simp

/-- Claim C9: under exact arithmetic, the compensated apply started from
a zero compensation buffer produces exactly the parameter of the direct
apply, and the compensation buffer is zero again after any exact
compensated apply; the same holds for the whole step: with a zero
compensation buffer in the state, the compensated step and the direct
step agree on the final parameter and the compensation buffer ends at
zero, so the two modes differ only under rounding. -/
theorem claim_c9 (sqrt : α → α) (lr b1 b2 e wd : α) (s : α) (m cv p c : List α)
    (st : PState α) (pp g : List α)
    (hm : m.length = p.length) (hcv : cv.length = p.length)
    (hc : c.length = p.length)
    (hsm : st.exp_avg.length = pp.length) (hsv : st.exp_avg_sq.length = pp.length)
    (hscomp : st.compensation = some (List.replicate pp.length 0))
    (hg : g.length = pp.length) :
    (kahanApply Prec.exact s m cv p (List.replicate p.length 0)).1 =
      directApply Prec.exact s m cv p ∧
    (kahanApply Prec.exact s m cv p c).2 = List.replicate p.length 0 ∧
    (stepDense sqrt Prec.exact ⟨lr, b1, b2, e, wd, true⟩ (some st) pp g).1 =
      (stepDense sqrt Prec.exact ⟨lr, b1, b2, e, wd, false⟩ (some st) pp g).1 ∧
    (stepDense sqrt Prec.exact ⟨lr, b1, b2, e, wd, true⟩
        (some st) pp g).2.compensation = some (List.replicate pp.length 0) := by
  have hlen : (weightDecayPhase (Prec.exact (α := α))
      ⟨lr, b1, b2, e, wd, true⟩ pp).length = pp.length :=
    weightDecayPhase_length _ _ _
  have hm2 : (momentUpdate (Prec.exact (α := α)) b1 st.exp_avg g).length =
      (weightDecayPhase (Prec.exact (α := α)) ⟨lr, b1, b2, e, wd, true⟩ pp).length := by
    simp [momentUpdate, hsm, hg, hlen]
  have hcv2 : (centeredVarianceOf sqrt (Prec.exact (α := α))
      ⟨lr, b1, b2, e, wd, true⟩ (st.step + 1)
      (varianceUpdate (Prec.exact (α := α)) b2 st.exp_avg_sq g)).length =
      (weightDecayPhase (Prec.exact (α := α)) ⟨lr, b1, b2, e, wd, true⟩ pp).length := by
    simp [centeredVarianceOf, varianceUpdate, hsv, hg, hlen]
  refine ⟨kahanApply_exact_fst s m cv p,
    kahanApply_exact_snd s m cv p c hm hcv hc, ?_, ?_⟩
  · simp only [stepDense, Option.getD_some, hscomp, eq_self_iff_true, if_true,
      Bool.false_eq_true, if_false]
    rw [← hlen]
    exact kahanApply_exact_fst _ _ _ _
  · simp only [stepDense, Option.getD_some, hscomp, eq_self_iff_true, if_true,
      Bool.false_eq_true, if_false]
    rw [← hlen]
    rw [kahanApply_exact_snd
      (stepSizeOf ⟨lr, b1, b2, e, wd, true⟩ (st.step + 1))
      (momentUpdate Prec.exact b1 st.exp_avg g)
      (centeredVarianceOf sqrt Prec.exact ⟨lr, b1, b2, e, wd, true⟩ (st.step + 1)
        (varianceUpdate Prec.exact b2 st.exp_avg_sq g))
      (weightDecayPhase Prec.exact ⟨lr, b1, b2, e, wd, true⟩ pp)
      (List.replicate
        (weightDecayPhase Prec.exact (⟨lr, b1, b2, e, wd, true⟩ : Hyper α) pp).length 0)
      hm2 hcv2 (by simp)]

end BFF

namespace BFF

lemma sqrt_ratio_norm : (Real.sqrt 250)⁻¹ * Real.sqrt 1000 = 2 := by
  rw [← div_eq_inv_mul]
  rw [← Real.sqrt_div (by norm_num : (0:ℝ) ≤ 1000) 250]
  rw [show ((1000 : ℝ) / 250) = 2 ^ 2 by norm_num]
  exact Real.sqrt_sq (by norm_num)

lemma sqrt_ratio : Real.sqrt 0.004 / Real.sqrt 0.001 = 2 := by
  rw [← Real.sqrt_div (by norm_num : (0:ℝ) ≤ 0.004) 0.001]
  rw [show (0.004 / 0.001 : ℝ) = 2 ^ 2 by norm_num]
  exact Real.sqrt_sq (by norm_num)

/-- Claim C3: on an update with step count t ≥ 1, the scalar step size is
learningRate / (1 − beta1^t), and the centered variance is elementwise
sqrt(uncenteredVariance) / sqrt(1 − beta2^t) with the scalar epsilon
added to every element after the normalization. -/
theorem claim_c3 (hp : Hyper ℝ) (t : ℕ) (_ht : 1 ≤ t) (v : List ℝ) :
    stepSizeOf hp t = hp.lr / (1 - hp.beta1 ^ t) ∧
    denomCorrectionOf Real.sqrt hp t = Real.sqrt (1 - hp.beta2 ^ t) ∧
    centeredVarianceOf Real.sqrt Prec.exact hp t v =
      v.map (fun a => Real.sqrt a / Real.sqrt (1 - hp.beta2 ^ t) + hp.eps) := by
  refine ⟨rfl, rfl, ?_⟩
  simp [centeredVarianceOf, denomCorrectionOf, Prec.exact]

/-- Claim C2: the spec's concrete full-precision scalar scenario:
parameter 1.0, gradient 2.0, lr 0.1, beta1 0.9, beta2 0.999,
epsilon 1e-8, weightDecay 0, compensation disabled.  One step gives
momentum 0.2, uncenteredVariance 0.004, biasCorrection1 0.1,
stepSize 1.0, denomCorrection within 1e-6 of 0.0316228,
centeredVariance exactly 2.00000001, and a parameter within 1e-8
of 0.9. -/
theorem claim_c2 :
    (stepDense Real.sqrt Prec.exact (⟨0.1, 0.9, 0.999, 1e-8, 0, false⟩ : Hyper ℝ)
        none [1] [2]).2.exp_avg = [0.2] ∧
    (stepDense Real.sqrt Prec.exact (⟨0.1, 0.9, 0.999, 1e-8, 0, false⟩ : Hyper ℝ)
        none [1] [2]).2.exp_avg_sq = [0.004] ∧
    biasCorrection1 (⟨0.1, 0.9, 0.999, 1e-8, 0, false⟩ : Hyper ℝ) 1 = 0.1 ∧
    stepSizeOf (⟨0.1, 0.9, 0.999, 1e-8, 0, false⟩ : Hyper ℝ) 1 = 1 ∧
    |denomCorrectionOf Real.sqrt (⟨0.1, 0.9, 0.999, 1e-8, 0, false⟩ : Hyper ℝ) 1
      - 0.0316228| < 1e-6 ∧
    centeredVarianceOf Real.sqrt Prec.exact
      (⟨0.1, 0.9, 0.999, 1e-8, 0, false⟩ : Hyper ℝ) 1 [0.004] = [2.00000001] ∧
    ∃ x : ℝ, (stepDense Real.sqrt Prec.exact
        (⟨0.1, 0.9, 0.999, 1e-8, 0, false⟩ : Hyper ℝ) none [1] [2]).1 = [x] ∧
      |x - 0.9| < 1e-8 := by
  refine ⟨?_, ?_, ?_, ?_, ?_, ?_, ?_⟩
  · norm_num [stepDense, initState, weightDecayPhase, momentUpdate, varianceUpdate,
      Prec.exact, List.zipWith]
  · norm_num [stepDense, initState, weightDecayPhase, momentUpdate, varianceUpdate,
      Prec.exact, List.zipWith]
  · norm_num [biasCorrection1]
  · norm_num [stepSizeOf, biasCorrection1]
  · rw [abs_sub_lt_iff]
    unfold denomCorrectionOf
    constructor
    · have h := (Real.sqrt_lt' (by norm_num : (0:ℝ) < 0.0316238)).2
        (by norm_num : ((1 : ℝ) - 0.999 ^ 1) < 0.0316238 ^ 2)
      linarith
    · have h := (Real.lt_sqrt (by norm_num : (0:ℝ) ≤ 0.0316218)).2
        (by norm_num : ((0.0316218 : ℝ)) ^ 2 < 1 - 0.999 ^ 1)
      linarith
  · simp only [centeredVarianceOf, denomCorrectionOf, Prec.exact, id_eq, List.map]
    rw [show ((1 : ℝ) - 0.999 ^ 1) = 0.001 by norm_num, sqrt_ratio]
    norm_num
  · have hr : (stepDense Real.sqrt Prec.exact
        (⟨0.1, 0.9, 0.999, 1e-8, 0, false⟩ : Hyper ℝ) none [1] [2]).1 =
        [1 - 0.2 / (2 + 1e-8)] := by
      simp only [stepDense, initState, weightDecayPhase, momentUpdate, varianceUpdate,
        stepSizeOf, biasCorrection1, centeredVarianceOf, denomCorrectionOf, directApply,
        Prec.exact, id_eq, List.zipWith, List.zipWith3, List.map, List.length_cons,
        List.length_nil, List.replicate, Option.getD_none]
      norm_num
      simp only [List.zipWith3, List.cons.injEq, and_true]
      rw [sqrt_ratio_norm]
      norm_num
    refine ⟨_, hr, ?_⟩
    rw [abs_sub_lt_iff]
    constructor <;> norm_num

end BFF

namespace BFF

/-- Witness for C1 at concrete rational inputs. -/
theorem claim_c1_witness :
    kahanApply Prec.exact (1 : ℚ) [1] [2] [3] [0] =
      kahanApplySpec 1 [1] [2] [3] [0] ∧
    stepDense (fun x => x) Prec.exact hpQK none [1] [2] =
      kahanStepSpec (fun x => x) hpQK none [1] [2] :=
  claim_c1 (fun x => x) hpQK rfl none [1] [2] 1 [1] [2] [3] [0]

/-- Witness for C3 at step count 1. -/
theorem claim_c3_witness :
    stepSizeOf (⟨0.1, 0.9, 0.999, 1e-8, 0, false⟩ : Hyper ℝ) 1 =
      (0.1 : ℝ) / (1 - 0.9 ^ 1) ∧
    denomCorrectionOf Real.sqrt (⟨0.1, 0.9, 0.999, 1e-8, 0, false⟩ : Hyper ℝ) 1 =
      Real.sqrt (1 - 0.999 ^ 1) ∧
    centeredVarianceOf Real.sqrt Prec.exact
      (⟨0.1, 0.9, 0.999, 1e-8, 0, false⟩ : Hyper ℝ) 1 [4] =
      ([4] : List ℝ).map (fun a => Real.sqrt a / Real.sqrt (1 - 0.999 ^ 1) + 1e-8) :=
  claim_c3 ⟨0.1, 0.9, 0.999, 1e-8, 0, false⟩ 1 (by norm_num) [4]

/-- Witness for C5: two dense calls interleaved with two absent calls
leave the step counter at exactly 2. -/
theorem claim_c5_witness :
    ∃ pm2 st2, runCalls (fun x => x) Prec.exact hpQ0 ⟨[1], none⟩ none
      [none, some (Grad.dense [1]), none, some (Grad.dense [0])] =
        .ok (pm2, st2) ∧
      stepCount st2 =
        countDense [none, some (Grad.dense [(1 : ℚ)]), none, some (Grad.dense [0])] :=
  (claim_c5 (fun x => x) Prec.exact hpQ0).2.2
    [none, some (Grad.dense [1]), none, some (Grad.dense [0])] [1] (by decide)

/-- Witness for C7: decay with weightDecay = 0 is skipped; with
lr = 0.1 and weightDecay = 0.1 a parameter 2 decays to 1.98. -/
theorem claim_c7_witness :
    weightDecayPhase Prec.exact hpQ0 [(2 : ℚ)] = [2] ∧
    weightDecayPhase Prec.exact hpQwd [(2 : ℚ)] = [99/50] := by
  refine ⟨(claim_c7 (fun x : ℚ => x) Prec.exact hpQ0).1 [2] (by norm_num [hpQ0]), ?_⟩
  rw [(claim_c7 (fun x : ℚ => x) Prec.exact hpQwd).2.1 [2] (by norm_num [hpQwd])]
  norm_num [hpQwd, Prec.exact]

/-- Witness for C9 at concrete rational inputs. -/
theorem claim_c9_witness :
    (kahanApply Prec.exact (1 : ℚ) [1] [2] [4] [0]).1 =
      directApply Prec.exact 1 [1] [2] [4] ∧
    (kahanApply Prec.exact (1 : ℚ) [1] [2] [4] [5]).2 = [0] ∧
    (stepDense (fun x : ℚ => x) Prec.exact ⟨1, 0, 0, 1, 0, true⟩
        (some ⟨0, [1], [1], some [0]⟩) [3] [2]).1 =
      (stepDense (fun x : ℚ => x) Prec.exact ⟨1, 0, 0, 1, 0, false⟩
        (some ⟨0, [1], [1], some [0]⟩) [3] [2]).1 ∧
    (stepDense (fun x : ℚ => x) Prec.exact ⟨1, 0, 0, 1, 0, true⟩
        (some ⟨0, [1], [1], some [0]⟩) [3] [2]).2.compensation = some [0] :=
  claim_c9 (fun x => x) 1 0 0 1 0 1 [1] [2] [4] [5] ⟨0, [1], [1], some [0]⟩ [3] [2]
    rfl rfl rfl rfl rfl rfl rfl

/-- Witness for C10: a successful concrete update call returns the
gradient it was given. -/
theorem claim_c10_witness :
    (Param.mk [(3/5 : ℚ)] (some (Grad.dense [2]))).grad =
      (Param.mk [(1 : ℚ)] (some (Grad.dense [2]))).grad :=
  claim_c10 (fun x => x) Prec.exact hpQ0 ⟨[1], some (Grad.dense [2])⟩ none
    (⟨[3/5], some (Grad.dense [2])⟩, some ⟨1, [2], [4], none⟩)
    (by norm_num [stepParam, stepDense, hpQ0, initState, weightDecayPhase,
      momentUpdate, varianceUpdate, stepSizeOf, biasCorrection1, denomCorrectionOf,
      centeredVarianceOf, directApply, Prec.exact, List.zipWith3])

end BFF
